import Mathlib

/-!
Verification of the muta node's bootstrap/run entry point (`src/main.rs`)
and its categorized storage contract (`core/runtime/src/database.rs`)
against the natural-language specification.

The embedding is shallow: Rust functions become Lean functions, the
persistent stores become explicit state values threaded through the
functions, and external collaborators (executor, crypto, hashing) become
function-valued parameters bundled in `Externals`.
-/

namespace Muta

/-- Byte sequences (`Vec<u8>` / `&[u8]` in the source) are modelled as lists
of naturals. -/
abbrev Bytes := List Nat

/-! ## Categorized store (`core/runtime/src/database.rs`) -/

/-- The closed set of data categories, from `core/runtime/src/database.rs`
(`enum DataCategory`). -/
inductive DataCategory
  | Block
  | Transaction
  | Receipt
  | State
  | TransactionPool
deriving DecidableEq, Repr

/-- The error type of the categorized store, from
`core/runtime/src/database.rs` (`enum DatabaseError`). -/
inductive DatabaseError
  | NotFound
  | InvalidData
  | Internal (detail : String)
deriving DecidableEq, Repr

/-- Modelled from the spec: the `Database` trait in
`core/runtime/src/database.rs` declares the operation signatures only; no
backing engine is under `src/`. This is the in-memory categorized key-value
store of spec section 4.1: entries are (category, key) to value bindings,
keys unique per category, newest binding first. -/
structure MemoryDB where
  entries : List ((DataCategory × Bytes) × Bytes)
deriving DecidableEq, Repr

/-- Internal lookup: the current binding of `(c, key)`, if any. -/
def MemoryDB.lookup (db : MemoryDB) (c : DataCategory) (key : Bytes) : Option Bytes :=
  (db.entries.find? (fun e => decide (e.1 = (c, key)))).map (fun e => e.2)

/-- Modelled from the spec: `get(category, key) -> value or NotFound`
(spec section 4.1); a single-key miss is a `NotFound` error. -/
def MemoryDB.get (db : MemoryDB) (c : DataCategory) (key : Bytes) :
    Except DatabaseError Bytes :=
  match db.lookup c key with
  | some v => .ok v
  | none => .error .NotFound

/-- Modelled from the spec: `get_batch(category, keys)` returns a sequence of
optional values in the order of the input keys; a missing key yields an empty
slot, not an error (spec section 4.1). -/
def MemoryDB.get_batch (db : MemoryDB) (c : DataCategory) (keys : List Bytes) :
    Except DatabaseError (List (Option Bytes)) :=
  .ok (keys.map (db.lookup c))

/-- Modelled from the spec: `insert(category, key, value)` overwrites any
existing value for that key (spec section 4.1). -/
def MemoryDB.insert (db : MemoryDB) (c : DataCategory) (key value : Bytes) :
    Except DatabaseError MemoryDB :=
  .ok ⟨((c, key), value) :: db.entries.filter (fun e => decide (e.1 ≠ (c, key)))⟩

/-- Modelled from the spec: `contains(category, key) -> boolean`
(spec section 4.1). -/
def MemoryDB.contains (db : MemoryDB) (c : DataCategory) (key : Bytes) :
    Except DatabaseError Bool :=
  .ok (db.lookup c key).isSome

/-- Modelled from the spec: `remove` is idempotent; removing an absent key is
not an error (spec section 4.1). -/
def MemoryDB.remove (db : MemoryDB) (c : DataCategory) (key : Bytes) :
    Except DatabaseError MemoryDB :=
  .ok ⟨db.entries.filter (fun e => decide (e.1 ≠ (c, key)))⟩

/-- Modelled from the spec: `insert_batch` requires equal-length key and value
arrays and writes all pairs or none (spec section 4.1). -/
def MemoryDB.insert_batch (db : MemoryDB) (c : DataCategory)
    (keys values : List Bytes) : Except DatabaseError MemoryDB :=
  if keys.length = values.length then
    .ok ((keys.zip values).foldl
      (fun acc kv =>
        ⟨(((c, kv.1), kv.2)) :: acc.entries.filter (fun e => decide (e.1 ≠ (c, kv.1)))⟩)
      db)
  else
    .error .InvalidData

/-- Modelled from the spec: `remove_batch` removes every listed key;
absent keys are not an error (spec section 4.1). -/
def MemoryDB.remove_batch (db : MemoryDB) (c : DataCategory) (keys : List Bytes) :
    Except DatabaseError MemoryDB :=
  .ok ⟨db.entries.filter (fun e => decide (¬ (e.1.1 = c ∧ e.1.2 ∈ keys)))⟩

/-! ## Core data types (spec section 3; the `core_types` crate is not under
`src/`, so these are modelled from the spec's data model) -/

/-- Modelled from the spec: a content hash / state-root fingerprint
(`core_types::Hash`), carried as raw bytes. -/
structure Hash where
  bytes : Bytes
deriving DecidableEq, Repr

/-- Modelled from the spec: a verifier/node address (`core_types::Address`). -/
structure Address where
  hex : String
deriving DecidableEq, Repr

/-- Modelled from the spec: a block header with height, timestamp,
previous-hash, state-root and quota-limit (spec section 3;
`core_types::BlockHeader`). -/
structure BlockHeader where
  prevhash : Hash
  timestamp : Nat
  height : Nat
  quota_limit : Nat
  state_root : Hash
deriving DecidableEq, Repr

/-- The value produced by `BlockHeader::default()` in `handle_init`:
all fields zero/empty. -/
def BlockHeader.default : BlockHeader :=
  { prevhash := ⟨[]⟩, timestamp := 0, height := 0, quota_limit := 0,
    state_root := ⟨[]⟩ }

/-- Modelled from the spec: a block is a header plus an ordered body of
transaction references plus a content hash (spec section 3;
`core_types::Block`). -/
structure Block where
  header : BlockHeader
  tx_hashes : List Hash
  hash : Hash
deriving DecidableEq, Repr

/-- The value produced by `Block::default()` in `handle_init`. -/
def Block.default : Block :=
  { header := BlockHeader.default, tx_hashes := [], hash := ⟨[]⟩ }

/-- Modelled from the spec: a proof is (height, round,
aggregated-signature-or-vote-set) (spec section 3; `core_types::Proof`);
the vote-set payload is carried as raw bytes. -/
structure Proof where
  height : Nat
  round : Nat
  content : Bytes
deriving DecidableEq, Repr

/-- The value produced by `Proof::default()`: the empty proof payload. -/
def Proof.default : Proof := { height := 0, round := 0, content := [] }

/-- Modelled from the spec: the genesis seed record with previous-hash (hex
string, as read from JSON), timestamp, quota-limit and initial allocations
(spec sections 3 and 6; `core_types::Genesis`). -/
structure Genesis where
  prevhash : String
  timestamp : Nat
  quota_limit : Nat
  state_alloc : List (String × Nat)
deriving DecidableEq, Repr

/-- The node configuration, from `struct Config` in `src/main.rs`. -/
structure Config where
  privkey : String
  rpc_address : String
  rpc_workers : Nat
  data_path : String
  pool_size : Nat
  until_block_limit : Nat
  quota_limit : Nat
  consensus_tx_limit : Nat
  consensus_interval : Nat
  consensus_verifier_list : List String
  consensus_wal_path : String
deriving DecidableEq, Repr

/-- `Config::data_path_for_state` in `src/main.rs`: the state-trie store
lives under `state_data` inside the configured data path. -/
def Config.data_path_for_state (cfg : Config) : String :=
  cfg.data_path ++ "/state_data"

/-- `Config::data_path_for_block` in `src/main.rs`: the block store lives
under `block_data` inside the configured data path. -/
def Config.data_path_for_block (cfg : Config) : String :=
  cfg.data_path ++ "/block_data"

/-- The in-memory consensus status built in `start` (`src/main.rs` lines
182-193; the `core_consensus::ConsensusStatus` struct is not under `src/`,
its fields are taken from the construction site and spec section 3). -/
structure ConsensusStatus where
  height : Nat
  timestamp : Nat
  block_hash : Hash
  state_root : Hash
  tx_limit : Nat
  quota_limit : Nat
  interval : Nat
  proof : Proof
  node_address : Address
  verifier_list : List Address
deriving DecidableEq, Repr

/-! ## Ledger (`core_storage::BlockStorage`, modelled from spec section 4.2) -/

/-- Modelled from the spec: the Ledger tracks the latest block and the latest
proof on top of the categorized store (spec section 4.2). `BlockStorage` is
not under `src/`; only the latest-block and latest-proof views that
`src/main.rs` uses are modelled. -/
structure LedgerState where
  latestBlock : Option Block
  latestProof : Option Proof
deriving DecidableEq, Repr

/-- Modelled from the spec: `get_latest_block` fails (with the store's
`NotFound`) when no chain exists yet. -/
def LedgerState.get_latest_block (st : LedgerState) : Except DatabaseError Block :=
  match st.latestBlock with
  | some b => .ok b
  | none => .error .NotFound

/-- Modelled from the spec: `get_latest_proof` fails when no proof has been
recorded yet. -/
def LedgerState.get_latest_proof (st : LedgerState) : Except DatabaseError Proof :=
  match st.latestProof with
  | some p => .ok p
  | none => .error .NotFound

/-- Modelled from the spec: `insert_block` is append-only and fails with a
conflict error if the block's height is not current-latest-height + 1
(height 0 into an empty ledger) (spec section 4.2). -/
def LedgerState.insert_block (st : LedgerState) (b : Block) :
    Except DatabaseError LedgerState :=
  match st.latestBlock with
  | none =>
    if b.header.height = 0 then .ok { st with latestBlock := some b }
    else .error (.Internal "height conflict")
  | some lb =>
    if b.header.height = lb.header.height + 1 then .ok { st with latestBlock := some b }
    else .error (.Internal "height conflict")

/-- Modelled from the spec: `update_latest_proof` replaces the latest-proof
pointer (spec section 4.2). -/
def LedgerState.update_latest_proof (st : LedgerState) (p : Proof) : LedgerState :=
  { st with latestProof := some p }

/-! ## External collaborators (spec section 6) -/

/-- The external collaborators `src/main.rs` calls into, bundled as function
parameters: hex decoding of hashes and addresses (`core_crypto` /
`core_types`), the executor's genesis application
(`EVMExecutor::from_genesis`, returning the state root), header hashing
(`BlockHeader::hash`), and the privkey-to-address derivation
(`Secp256k1`). `none` models the external call failing. -/
structure Externals where
  fromHex : String → Option Hash
  applyGenesis : Genesis → Option Hash
  headerHash : BlockHeader → Hash
  nodeAddressOfPrivkey : String → Option Address
  addrFromHex : String → Option Address

/-- The error cases through which `handle_init` in `src/main.rs` returns
`Err` (propagated with `?`): genesis file open/parse failure, executor
failure, hex-decode failure, and storage failure. -/
inductive InitError
  | genesisFileError
  | execError
  | hexError
  | storageError (e : DatabaseError)
deriving DecidableEq, Repr

/-- An observable write performed by `handle_init` through the Ledger, in
program order. -/
inductive WriteEvent
  | wroteBlock (b : Block)
  | wroteProof (p : Proof)
deriving DecidableEq, Repr

/-- The outcome of a successful `handle_init` run: the resulting ledger
state, whether the already-a-chain error message was logged (the
`log::error` branch at `src/main.rs` line 227), and the ledger writes it
performed in order. -/
structure InitOutcome where
  state : LedgerState
  already_exists : Bool
  writes : List WriteEvent
deriving DecidableEq, Repr

/-- `handle_init` from `src/main.rs` (lines 213-264). `gfile` is the result
of opening and parsing the genesis file (`none` models a missing or
malformed file, which errors before anything else). If the ledger already
reports a latest block, the function logs the already-a-chain error and
returns `Ok` without writing; otherwise it applies the genesis through the
executor, assembles the height-0 block from the default header, writes it,
and records the empty (height 0, round 0) proof. -/
def handle_init (cfg : Config) (ext : Externals) (gfile : Option Genesis)
    (st : LedgerState) : Except InitError InitOutcome :=
  match gfile with
  | none => .error .genesisFileError
  | some genesis =>
    match st.get_latest_block with
    | .ok _ => .ok { state := st, already_exists := true, writes := [] }
    | .error _ =>
      match ext.applyGenesis genesis with
      | none => .error .execError
      | some state_root_hash =>
        match ext.fromHex genesis.prevhash with
        | none => .error .hexError
        | some ph =>
          let block_header : BlockHeader :=
            { BlockHeader.default with
                prevhash := ph
                timestamp := genesis.timestamp
                state_root := state_root_hash
                quota_limit := cfg.quota_limit }
          let block : Block :=
            { Block.default with
                hash := ext.headerHash block_header
                header := block_header }
          match st.insert_block block with
          | .error e => .error (.storageError e)
          | .ok st1 =>
            let proof : Proof := { Proof.default with height := 0, round := 0 }
            let st2 := st1.update_latest_proof proof
            .ok { state := st2, already_exists := false,
                  writes := [.wroteBlock block, .wroteProof proof] }

/-! ## Run mode (`start` in `src/main.rs`) and the process entry point -/

/-- The JSON-RPC worker count from `start` (`src/main.rs` lines 159-163):
the configured `rpc_workers` when non-zero, otherwise
`min 2 numCpus` where `numCpus` is what `num_cpus::get()` reports. -/
def jrpcWorkers (cfg : Config) (numCpus : Nat) : Nat :=
  if cfg.rpc_workers ≠ 0 then cfg.rpc_workers else min 2 numCpus

/-- The failure cases on which `start` in `src/main.rs` panics via
`.unwrap()` / `.expect`: storage reads, privkey decoding/derivation, and
verifier address decoding. -/
inductive StartError
  | storage (e : DatabaseError)
  | badPrivkey
  | badVerifierAddress
deriving DecidableEq, Repr

/-- The observables of `start`: the JSON-RPC worker count it configures and
the `ConsensusStatus` it rebuilds from persisted state. -/
structure StartOutcome where
  jrpc_workers : Nat
  status : ConsensusStatus
deriving DecidableEq, Repr

/-- Decode every verifier address string (`Address::from_hex` loop in
`src/main.rs` lines 176-179); any failure is a panic. -/
def decodeAddressList (f : String → Option Address) : List String → Option (List Address)
  | [] => some []
  | s :: tl =>
    match f s, decodeAddressList f tl with
    | some a, some as_ => some (a :: as_)
    | _, _ => none

/-- `start` from `src/main.rs` (lines 103-211), restricted to its embedded
observables: it reads the latest block from the Ledger, configures the
JSON-RPC worker count, derives the node address from the configured private
key, decodes the verifier list, reads the latest proof, and rebuilds the
`ConsensusStatus` from the persisted block/proof plus configured limits.
Construction of the executor, transaction pool, network and pub/sub handles
is external setup with no effect on these observables and is not modelled. -/
def start (cfg : Config) (ext : Externals) (numCpus : Nat) (st : LedgerState) :
    Except StartError StartOutcome :=
  match st.get_latest_block with
  | .error e => .error (.storage e)
  | .ok block =>
    let workers := jrpcWorkers cfg numCpus
    match ext.nodeAddressOfPrivkey cfg.privkey with
    | none => .error .badPrivkey
    | some node_address =>
      match decodeAddressList ext.addrFromHex cfg.consensus_verifier_list with
      | none => .error .badVerifierAddress
      | some verifier_list =>
        match st.get_latest_proof with
        | .error e => .error (.storage e)
        | .ok proof =>
          .ok { jrpc_workers := workers,
                status := { height := block.header.height
                            timestamp := block.header.timestamp
                            block_hash := block.hash
                            state_root := block.header.state_root
                            tx_limit := cfg.consensus_tx_limit
                            quota_limit := cfg.quota_limit
                            interval := cfg.consensus_interval
                            proof := proof
                            node_address := node_address
                            verifier_list := verifier_list } }

deriving instance DecidableEq for Except

/-- The observable outcome of one process run of `main`: the ledger state
after the optional init phase, whether the already-a-chain error was logged,
whether control reached `start` (run mode), and the result of `start`. -/
structure MainOutcome where
  final_state : LedgerState
  already_exists : Bool
  entered_run_mode : Bool
  run : Except StartError StartOutcome
deriving DecidableEq, Repr

/-- `main` from `src/main.rs` (lines 70-101): with the `init` subcommand it
runs `handle_init` and panics (process exit) on `Err` via `.unwrap()`; in
every case where `handle_init` returns `Ok` — including the already-a-chain
branch — control falls through to `start(&cfg)` (line 100), so the process
continues into run mode. `init_cmd = none` is a run without the subcommand;
`some gfile` carries the parse result of the genesis file. -/
def main (cfg : Config) (ext : Externals) (init_cmd : Option (Option Genesis))
    (st : LedgerState) (numCpus : Nat) : Except InitError MainOutcome :=
  match init_cmd with
  | none =>
    .ok { final_state := st, already_exists := false, entered_run_mode := true,
          run := start cfg ext numCpus st }
  | some gfile =>
    match handle_init cfg ext gfile st with
    | .error e => .error e
    | .ok out =>
      .ok { final_state := out.state, already_exists := out.already_exists,
            entered_run_mode := true, run := start cfg ext numCpus out.state }

/-! ## Concrete fixtures used by witnesses and counterexamples -/

/-- A concrete configuration (`quota_limit = 7`, `rpc_workers = 0`). -/
def cfgEx : Config :=
  { privkey := "pk", rpc_address := "127.0.0.1:3030", rpc_workers := 0,
    data_path := "./data", pool_size := 10, until_block_limit := 20,
    quota_limit := 7, consensus_tx_limit := 30, consensus_interval := 3,
    consensus_verifier_list := ["v1"], consensus_wal_path := "./wal" }

/-- A concrete genesis record whose `quota_limit` (5) differs from the
configuration's (7). -/
def gEx : Genesis :=
  { prevhash := "00", timestamp := 42, quota_limit := 5, state_alloc := [] }

/-- Concrete external collaborators: hex decoding and the executor always
succeed with fixed hashes, and the header hash folds the timestamp with the
state-root bytes. -/
def extEx : Externals :=
  { fromHex := fun _ => some ⟨[3]⟩
    applyGenesis := fun _ => some ⟨[9]⟩
    headerHash := fun h => ⟨h.timestamp :: h.state_root.bytes⟩
    nodeAddressOfPrivkey := fun _ => some ⟨"me"⟩
    addrFromHex := fun s => some ⟨s⟩ }

/-- A concrete existing block at height 0. -/
def bEx : Block :=
  { header := { prevhash := ⟨[]⟩, timestamp := 1, height := 0, quota_limit := 7,
                state_root := ⟨[]⟩ },
    tx_hashes := [], hash := ⟨[1]⟩ }

/-- A concrete existing proof. -/
def pEx : Proof := { height := 0, round := 0, content := [8] }

/-- A ledger that already holds a chain (latest block `bEx`, proof `pEx`). -/
def stChainEx : LedgerState := { latestBlock := some bEx, latestProof := some pEx }

/-- The empty ledger: no chain yet. -/
def stEmptyEx : LedgerState := { latestBlock := none, latestProof := none }

/-- A concrete store with one binding, used by the store witnesses. -/
def dbEx : MemoryDB := ⟨[((DataCategory.Block, [1]), [2])]⟩

/-! ## Helper lemmas -/

/-- After filtering out every entry bound to `x`, no entry bound to `x` can
be found. -/
theorem find_of_filter_ne (x : DataCategory × Bytes)
    (l : List ((DataCategory × Bytes) × Bytes)) :
    (l.filter (fun e => decide (e.1 ≠ x))).find? (fun e => decide (e.1 = x)) = none := by
  induction l with
  | nil => rfl
  | cons a tl ih =>
    by_cases h : a.1 = x
    · simp [List.filter_cons, h, ih]
    · simp [List.filter_cons, List.find?, h, ih]

/-- Removing a key clears its binding: after `remove(c, k)` the store holds
no value for `(c, k)`. -/
theorem lookup_after_remove (db db' : MemoryDB) (c : DataCategory) (k : Bytes)
    (h : db.remove c k = .ok db') : db'.lookup c k = none := by
  cases h
  simp [MemoryDB.lookup, find_of_filter_ne]

/-! ## Claim theorems: categorized store -/

/-- C6: for every category `c`, key `k` and value `v`, a successful
`insert(c, k, v)` followed by `get(c, k)` returns `v` — the insert
overwrites any existing binding and the subsequent get does not fail. -/
theorem C6_insert_then_get (db db' : MemoryDB) (c : DataCategory) (k v : Bytes)
    (h : db.insert c k v = .ok db') : db'.get c k = .ok v := by
  cases h
  simp [MemoryDB.get, MemoryDB.lookup, List.find?]

theorem C6_insert_then_get_witness :
    MemoryDB.get ⟨[((DataCategory.Block, [1]), [5])]⟩ DataCategory.Block [1] = .ok [5] :=
  C6_insert_then_get dbEx ⟨[((DataCategory.Block, [1]), [5])]⟩ DataCategory.Block [1] [5]
    (by decide)

/-- C7: a successful `get_batch` returns one optional value per input key, in
input order; an absent key — in particular one previously removed — yields an
empty slot in its position rather than an error. -/
theorem C7_get_batch_shape (db : MemoryDB) (c : DataCategory) (keys : List Bytes)
    (res : List (Option Bytes)) (h : db.get_batch c keys = .ok res) :
    res.length = keys.length ∧
    (∀ (i : Nat) (k : Bytes), keys[i]? = some k → res[i]? = some (db.lookup c k)) ∧
    (∀ (i : Nat) (k : Bytes), keys[i]? = some k → db.lookup c k = none → res[i]? = some none) ∧
    (∀ k db' res', db.remove c k = .ok db' → db'.get_batch c keys = .ok res' →
      ∀ (i : Nat), keys[i]? = some k → res'[i]? = some none) := by
  cases h
  refine ⟨List.length_map _ _, ?_, ?_, ?_⟩
  · intro i k hk
    simp [List.getElem?_map, hk]
  · intro i k hk hnone
    simp [List.getElem?_map, hk, hnone]
  · intro k db' res' hrem hbatch i hk
    have hlk : db'.lookup c k = none := lookup_after_remove db db' c k hrem
    cases hbatch
    simp [List.getElem?_map, hk, hlk]

theorem C7_get_batch_shape_witness :
    ([some ([2] : Bytes), none].length = ([[1], [9]] : List Bytes).length) ∧
    (∀ (i : Nat) (k : Bytes), ([[1], [9]] : List Bytes)[i]? = some k →
      [some ([2] : Bytes), none][i]? = some (dbEx.lookup DataCategory.Block k)) ∧
    (∀ (i : Nat) (k : Bytes), ([[1], [9]] : List Bytes)[i]? = some k →
      dbEx.lookup DataCategory.Block k = none →
      [some ([2] : Bytes), none][i]? = some none) ∧
    (∀ k db' res', dbEx.remove DataCategory.Block k = .ok db' →
      db'.get_batch DataCategory.Block [[1], [9]] = .ok res' →
      ∀ (i : Nat), ([[1], [9]] : List Bytes)[i]? = some k → res'[i]? = some none) :=
  C7_get_batch_shape dbEx DataCategory.Block [[1], [9]] [some [2], none] (by decide)

/-- C8: the categorized store's errors are exactly `NotFound`, `InvalidData`
and `Internal(detail)`, and a single-key `get` on an absent key fails with
`NotFound`. -/
theorem C8_error_taxonomy (e : DatabaseError) (db : MemoryDB) (c : DataCategory)
    (k : Bytes) (h : db.lookup c k = none) :
    (e = .NotFound ∨ e = .InvalidData ∨ ∃ d, e = .Internal d) ∧
    db.get c k = .error .NotFound := by
  constructor
  · cases e with
    | NotFound => exact .inl rfl
    | InvalidData => exact .inr (.inl rfl)
    | Internal d => exact .inr (.inr ⟨d, rfl⟩)
  · simp [MemoryDB.get, h]

theorem C8_error_taxonomy_witness :
    ((DatabaseError.Internal "io" = .NotFound ∨
      DatabaseError.Internal "io" = .InvalidData ∨
      ∃ d, DatabaseError.Internal "io" = .Internal d) ∧
     dbEx.get DataCategory.Block [9] = .error .NotFound) :=
  C8_error_taxonomy (.Internal "io") dbEx DataCategory.Block [9] (by decide)

/-! ## Claim theorems: bootstrap and run mode -/

/-- C2: for every configuration, external environment and genesis record,
running Bootstrap (`handle_init`) when the Ledger already reports a latest
block is a no-op: it performs no writes, returns the ledger unchanged,
reports the chain as already initialized (the logged error branch), and does
not error. -/
theorem C2_bootstrap_noop (cfg : Config) (ext : Externals) (g : Genesis)
    (st : LedgerState) (b : Block) (h : st.latestBlock = some b) :
    handle_init cfg ext (some g) st =
      .ok { state := st, already_exists := true, writes := [] } := by
  simp [handle_init, LedgerState.get_latest_block, h]

theorem C2_bootstrap_noop_witness :
    handle_init cfgEx extEx (some gEx) stChainEx =
      .ok { state := stChainEx, already_exists := true, writes := [] } :=
  C2_bootstrap_noop cfgEx extEx gEx stChainEx bEx rfl

/-- C1 (counterexample): with a chain already present, `main` run with the
`init` subcommand reports the already-a-chain error and leaves the state
unchanged, but then continues into run mode (`start` is invoked at
`src/main.rs` line 100) instead of exiting, so the claimed
"exits ... rather than continuing into run mode" is false. -/
theorem C1_counterexample :
    ((main cfgEx extEx (some (some gEx)) stChainEx 4).map
        (fun r => (r.final_state, r.already_exists, r.entered_run_mode)) =
      .ok (stChainEx, true, true)) ∧
    ((main cfgEx extEx (some (some gEx)) stChainEx 4).map
        (fun r => r.entered_run_mode) ≠ .ok false) := by
  exact ⟨rfl, by decide⟩

/-- C1 (amended): when the `init` subcommand runs against a data path where
a chain already exists, the bootstrap failure is reported to the operator
and the existing state is not mutated, but the process then continues into
run mode (`start` is called on the unchanged state) rather than exiting. -/
theorem C1_init_reports_then_runs (cfg : Config) (ext : Externals) (g : Genesis)
    (st : LedgerState) (b : Block) (ncpu : Nat) (h : st.latestBlock = some b) :
    main cfg ext (some (some g)) st ncpu =
      .ok { final_state := st, already_exists := true, entered_run_mode := true,
            run := start cfg ext ncpu st } := by
  simp [main, handle_init, LedgerState.get_latest_block, h]

theorem C1_init_reports_then_runs_witness :
    main cfgEx extEx (some (some gEx)) stChainEx 4 =
      .ok { final_state := stChainEx, already_exists := true,
            entered_run_mode := true, run := start cfgEx extEx 4 stChainEx } :=
  C1_init_reports_then_runs cfgEx extEx gEx stChainEx bEx 4 rfl

/-- C3 (counterexample): the height-0 block's quota-limit is taken from the
configuration (`cfg.quota_limit`, `src/main.rs` line 248), not from the
genesis record: with `gEx.quota_limit = 5` and `cfgEx.quota_limit = 7`, the
block written by a first-time init carries quota-limit 7, not 5. -/
theorem C3_counterexample :
    gEx.quota_limit = 5 ∧
    ((handle_init cfgEx extEx (some gEx) stEmptyEx).map
        (fun o => o.state.latestBlock.map (fun b => b.header.quota_limit)) =
      .ok (some 7)) ∧
    (7 : Nat) ≠ 5 := by
  exact ⟨rfl, rfl, by decide⟩

/-- C3 (amended): on a first-time init, the height-0 block is assembled
deterministically: its header's previous-hash is the decoded genesis
previous-hash, its timestamp is the genesis timestamp, its quota-limit is
the configuration's quota-limit (not the genesis record's), its state root
is the root returned by the executor applied to the genesis record on an
empty state, and its height is 0. -/
theorem C3_genesis_block_fields (cfg : Config) (ext : Externals) (g : Genesis)
    (st : LedgerState) (ph root : Hash)
    (h0 : st.latestBlock = none) (hg : ext.applyGenesis g = some root)
    (hh : ext.fromHex g.prevhash = some ph) :
    ∃ out b, handle_init cfg ext (some g) st = .ok out ∧
      out.state.latestBlock = some b ∧
      b.header.prevhash = ph ∧ b.header.timestamp = g.timestamp ∧
      b.header.quota_limit = cfg.quota_limit ∧
      b.header.state_root = root ∧ b.header.height = 0 := by
  simp only [handle_init, LedgerState.get_latest_block, h0, hg, hh,
    LedgerState.insert_block, LedgerState.update_latest_proof]
  exact ⟨_, _, rfl, rfl, rfl, rfl, rfl, rfl, rfl⟩

theorem C3_genesis_block_fields_witness :
    ∃ out b, handle_init cfgEx extEx (some gEx) stEmptyEx = .ok out ∧
      out.state.latestBlock = some b ∧
      b.header.prevhash = ⟨[3]⟩ ∧ b.header.timestamp = gEx.timestamp ∧
      b.header.quota_limit = cfgEx.quota_limit ∧
      b.header.state_root = ⟨[9]⟩ ∧ b.header.height = 0 :=
  C3_genesis_block_fields cfgEx extEx gEx stEmptyEx ⟨[3]⟩ ⟨[9]⟩ rfl rfl rfl

/-- C4: on a successful first-time init, the ledger writes happen in order —
the height-0 block first, then the empty (height 0, round 0) proof — and
after init completes the Ledger's latest proof has height 0 and round 0. -/
theorem C4_block_written_before_proof (cfg : Config) (ext : Externals)
    (g : Genesis) (st : LedgerState) (ph root : Hash)
    (h0 : st.latestBlock = none) (hg : ext.applyGenesis g = some root)
    (hh : ext.fromHex g.prevhash = some ph) :
    ∃ out b, handle_init cfg ext (some g) st = .ok out ∧
      out.writes = [WriteEvent.wroteBlock b,
                    WriteEvent.wroteProof { height := 0, round := 0, content := [] }] ∧
      out.state.latestProof = some { height := 0, round := 0, content := [] } := by
  simp only [handle_init, LedgerState.get_latest_block, h0, hg, hh,
    LedgerState.insert_block, LedgerState.update_latest_proof]
  exact ⟨_, _, rfl, rfl, rfl⟩

theorem C4_block_written_before_proof_witness :
    ∃ out b, handle_init cfgEx extEx (some gEx) stEmptyEx = .ok out ∧
      out.writes = [WriteEvent.wroteBlock b,
                    WriteEvent.wroteProof { height := 0, round := 0, content := [] }] ∧
      out.state.latestProof = some { height := 0, round := 0, content := [] } :=
  C4_block_written_before_proof cfgEx extEx gEx stEmptyEx ⟨[3]⟩ ⟨[9]⟩ rfl rfl rfl

/-- C10: the height-0 block written by init is identified by its hash: its
stored content hash equals the header hash computed from the fully assembled
header — previous-hash, timestamp, state root and quota-limit are all set
before the hash is taken. -/
theorem C10_hash_of_assembled_header (cfg : Config) (ext : Externals)
    (g : Genesis) (st : LedgerState) (ph root : Hash)
    (h0 : st.latestBlock = none) (hg : ext.applyGenesis g = some root)
    (hh : ext.fromHex g.prevhash = some ph) :
    ∃ out b, handle_init cfg ext (some g) st = .ok out ∧
      out.state.latestBlock = some b ∧
      b.hash = ext.headerHash b.header ∧
      b.header.prevhash = ph ∧ b.header.timestamp = g.timestamp ∧
      b.header.state_root = root ∧ b.header.quota_limit = cfg.quota_limit := by
  simp only [handle_init, LedgerState.get_latest_block, h0, hg, hh,
    LedgerState.insert_block, LedgerState.update_latest_proof]
  exact ⟨_, _, rfl, rfl, rfl, rfl, rfl, rfl, rfl⟩

theorem C10_hash_of_assembled_header_witness :
    ∃ out b, handle_init cfgEx extEx (some gEx) stEmptyEx = .ok out ∧
      out.state.latestBlock = some b ∧
      b.hash = extEx.headerHash b.header ∧
      b.header.prevhash = ⟨[3]⟩ ∧ b.header.timestamp = gEx.timestamp ∧
      b.header.state_root = ⟨[9]⟩ ∧ b.header.quota_limit = cfgEx.quota_limit :=
  C10_hash_of_assembled_header cfgEx extEx gEx stEmptyEx ⟨[3]⟩ ⟨[9]⟩ rfl rfl rfl

/-- C5: at startup, `start` rebuilds the in-memory `ConsensusStatus` from
persisted state: its height, timestamp, block hash and state root are those
of the Ledger's latest block, and its proof is the Ledger's latest proof —
in particular its height equals the Ledger's latest committed height. -/
theorem C5_status_rebuilt_from_ledger (cfg : Config) (ext : Externals)
    (ncpu : Nat) (st : LedgerState) (b : Block) (p : Proof) (out : StartOutcome)
    (hb : st.latestBlock = some b) (hp : st.latestProof = some p)
    (h : start cfg ext ncpu st = .ok out) :
    out.status.height = b.header.height ∧
    out.status.timestamp = b.header.timestamp ∧
    out.status.block_hash = b.hash ∧
    out.status.state_root = b.header.state_root ∧
    out.status.proof = p := by
  simp only [start, LedgerState.get_latest_block, LedgerState.get_latest_proof,
    hb, hp] at h
  cases hna : ext.nodeAddressOfPrivkey cfg.privkey with
  | none => rw [hna] at h; cases h
  | some na =>
    rw [hna] at h
    cases hdl : decodeAddressList ext.addrFromHex cfg.consensus_verifier_list with
    | none => rw [hdl] at h; cases h
    | some vl =>
      rw [hdl] at h
      cases h
      exact ⟨rfl, rfl, rfl, rfl, rfl⟩

/-- The concrete outcome of `start cfgEx extEx 4 stChainEx`. -/
def outEx : StartOutcome :=
  { jrpc_workers := 2,
    status := { height := 0, timestamp := 1, block_hash := ⟨[1]⟩,
                state_root := ⟨[]⟩, tx_limit := 30, quota_limit := 7,
                interval := 3, proof := pEx, node_address := ⟨"me"⟩,
                verifier_list := [⟨"v1"⟩] } }

theorem C5_status_rebuilt_from_ledger_witness :
    outEx.status.height = bEx.header.height ∧
    outEx.status.timestamp = bEx.header.timestamp ∧
    outEx.status.block_hash = bEx.hash ∧
    outEx.status.state_root = bEx.header.state_root ∧
    outEx.status.proof = pEx :=
  C5_status_rebuilt_from_ledger cfgEx extEx 4 stChainEx bEx pEx outEx rfl rfl rfl

/-- C9: the JSON-RPC worker count is the configured `rpc_workers` whenever
it is non-zero; when it is 0, the worker count is `min 2 numCpus`, which —
with at least one available CPU — is at least 1 and at most 2. -/
theorem C9_rpc_worker_count (cfg : Config) (ncpu : Nat) (h : 1 ≤ ncpu) :
    (cfg.rpc_workers ≠ 0 → jrpcWorkers cfg ncpu = cfg.rpc_workers) ∧
    (cfg.rpc_workers = 0 →
      jrpcWorkers cfg ncpu = min 2 ncpu ∧
      1 ≤ jrpcWorkers cfg ncpu ∧ jrpcWorkers cfg ncpu ≤ 2) := by
  constructor
  · intro hw
    simp [jrpcWorkers, hw]
  · intro hw
    have hmin : jrpcWorkers cfg ncpu = min 2 ncpu := by simp [jrpcWorkers, hw]
    rw [hmin]
    exact ⟨rfl, by omega, by omega⟩

theorem C9_rpc_worker_count_witness :
    (cfgEx.rpc_workers ≠ 0 → jrpcWorkers cfgEx 4 = cfgEx.rpc_workers) ∧
    (cfgEx.rpc_workers = 0 →
      jrpcWorkers cfgEx 4 = min 2 4 ∧
      1 ≤ jrpcWorkers cfgEx 4 ∧ jrpcWorkers cfgEx 4 ≤ 2) :=
  C9_rpc_worker_count cfgEx 4 (by decide)

end Muta
